import Mathlib

/-!
Verification of the Machiavellian power-estimation notebooks.

The repository consists of two notebooks:

* the distance-based notebook (PERMANOVA and the Mantel test), which defines
  the wrappers `calculate_permanova_power` and `calculate_mantel_power` and an
  orchestration loop over 100 simulation replicates dispatched through a
  process pool, and
* the parametric notebook (one-sample t, independent t, ANOVA with 3 and with
  8 groups, Pearson correlation), which wires each family to the shared
  estimator `machivellian.power.subsample_power` through keyword bundles and
  runs a sequential orchestration loop.

This file embeds the data handled by those notebooks - counts schedules,
estimator call sites, summary records, and the two orchestration loops - as
executable Lean definitions, and proves the properties stated about them.
The estimator `subsample_power` itself lives in the `machivellian` package,
outside the notebook sources; the only facts about it that are needed here
are its keyword defaults, which are modelled from the specification and
marked as such below.
-/

namespace Machiavellian

/-- Embedding of `np.arange(start, stop, step)` for natural arguments and a
positive step: the values `start, start + step, ...` strictly below `stop`.
The length is the ceiling of `(stop - start) / step`; for `stop ≤ start` the
result is empty, matching numpy on integer arguments. -/
def arange (start stop step : ℕ) : List ℕ :=
  (List.range ((stop - start + step - 1) / step)).map (fun k => start + k * step)

/-- Embedding of Python `min` over a list of naturals; Python raises on an
empty list, which never occurs at the call sites embedded here (the lists
always have one or two entries). -/
def pyListMin : List ℕ → ℕ
  | [] => 0
  | x :: xs => xs.foldl min x

/-! ### The PERMANOVA wrapper (`calculate_permanova_power`)

The simulation record carries a distance matrix and a grouping series
`groups`; the wrapper only uses the index of the series (the observation
identifiers) and the label attached to each identifier, so the embedding
keeps exactly those. -/

/-- The grouping series of a PERMANOVA simulation: the ordered identifiers
(the index of the pandas Series) and the label each identifier maps to. -/
structure PermanovaSim where
  ids : List ℕ
  label : ℕ → ℕ

/-- Embedding of `samples = [groups.loc[groups == i].index for i in [0, 1]]`:
the identifiers whose label is 0, then those whose label is 1, each in index
order. -/
def permanovaSamples (sim : PermanovaSim) : List (List ℕ) :=
  [0, 1].map (fun i => sim.ids.filter (fun o => sim.label o == i))

/-- Embedding of `min([len(s) for s in samples])` in the PERMANOVA wrapper. -/
def permanovaMinGroup (sim : PermanovaSim) : ℕ :=
  pyListMin ((permanovaSamples sim).map List.length)

/-- Embedding of `counts = np.arange(5, min([len(s) for s in samples]) - 10, 10)`
in the PERMANOVA wrapper. -/
def permanovaCounts (sim : PermanovaSim) : List ℕ :=
  arange 5 (permanovaMinGroup sim - 10) 10

/-- Embedding of `obs = np.hstack(ids)` inside the PERMANOVA wrapper's `test`:
the flat list of identifiers handed to `dm.filter(obs)` and `groups.loc[obs]`. -/
def permanovaTestObs (idsGroups : List (List ℕ)) : List ℕ :=
  idsGroups.flatten

/-- Embedding of `sum(len(s) for s in samples)`: the total number of
observations that enter the PERMANOVA power computation, for comparison with
the persisted `num_obs` field. -/
def permanovaTotalObs (sim : PermanovaSim) : ℕ :=
  ((permanovaSamples sim).map List.length).sum

/-! ### The Mantel wrapper (`calculate_mantel_power`) -/

/-- A Mantel simulation as used by the wrapper: only the shared identifier
list `x.ids` of the two paired distance structures is consulted. -/
structure MantelSim where
  ids : List ℕ

/-- Embedding of `samples = [np.array(x.ids)]` in the Mantel wrapper. -/
def mantelSamples (sim : MantelSim) : List (List ℕ) :=
  [sim.ids]

/-- Embedding of `counts = np.arange(5, len(samples[0]) - 10, 10)` in the
Mantel wrapper. -/
def mantelCounts (sim : MantelSim) : List ℕ :=
  arange 5 (((mantelSamples sim).headD []).length - 10) 10

/-! ### The parametric notebook's schedule and module-level configuration -/

/-- Embedding of the module-level `counts = np.arange(5, 100, 10)` of the
parametric notebook. -/
def parametricCounts : List ℕ :=
  arange 5 100 10

/-- The counts schedule the parametric orchestration uses for a loaded
sample: the module-level `counts`, independent of the samples. -/
def parametricCountsFor (_samples : List (List ℚ)) : List ℕ :=
  parametricCounts

/-- The smallest group size of a loaded parametric sample (a measurement used
to state the schedule bound; the notebook itself never computes it). -/
def minGroupSize (samples : List (List ℚ)) : ℕ :=
  pyListMin (samples.map List.length)

/-- Embedding of the module-level `num_iter = 100` of the parametric
notebook's configuration cell. -/
def configNumIter : ℕ := 100

/-- Embedding of the module-level `run_runs = 5` of the parametric notebook's
configuration cell. -/
def configRunRuns : ℕ := 5

/-- Embedding of the module-level `num_rounds = 100` shared by both
notebooks. -/
def numRounds : ℕ := 100

/-- Embedding of `alpha = 0.05` (exact rational). -/
def alphaConfig : ℚ := 1 / 20

/-- Embedding of `depth = 99` in the distance-based notebook. -/
def depthConfig : ℕ := 99

/-! ### Call sites of `machivellian.power.subsample_power`

Each wiring of a test family to the estimator is embedded as a record of the
keyword arguments appearing at that call site; an omitted keyword is `none`
and resolves through the estimator's default. -/

/-- The draw-mode policy of the estimator: independent draws per group, or a
single matched draw shared across paired structures. -/
inductive DrawMode
  | independent
  | matched
deriving DecidableEq

/-- Modelled from the spec: the default of the `bootstrap` keyword of
`machivellian.power.subsample_power`, whose source is not part of the
notebook corpus. Spec section 4.3 gives the contract
`estimate(test_fn, pool, counts, alpha, num_iter, num_runs, mode, bootstrap=false)`
and states that `bootstrap=false` (sampling without replacement) "is the
default and required mode for relational data". -/
def subsamplePowerBootstrapDefault : Bool := false

/-- Modelled from the spec: the default of the `draw_mode` keyword of
`machivellian.power.subsample_power`, whose source is not part of the
notebook corpus. The PERMANOVA wrapper's narrative cell states "The power
calculation method draws observations from each set independently", and the
spec's DrawMode lists `independent` as the mode used when no matched draw is
requested, so the omitted keyword resolves to independent draws. -/
def subsamplePowerDrawModeDefault : DrawMode := DrawMode.independent

/-- One call site of `subsample_power`: the `num_iter` and `num_runs` values
passed, and the `bootstrap` and `draw_mode` keywords when explicitly given. -/
structure SubsamplePowerCall where
  numIter : ℕ
  numRuns : ℕ
  bootstrapArg : Option Bool
  drawModeArg : Option DrawMode
deriving DecidableEq

/-- The bootstrap mode a call site resolves to (explicit keyword, or the
estimator's default). -/
def SubsamplePowerCall.bootstrap (c : SubsamplePowerCall) : Bool :=
  c.bootstrapArg.getD subsamplePowerBootstrapDefault

/-- The draw mode a call site resolves to (explicit keyword, or the
estimator's default). -/
def SubsamplePowerCall.drawMode (c : SubsamplePowerCall) : DrawMode :=
  c.drawModeArg.getD subsamplePowerDrawModeDefault

/-- The `subsample_power` call inside `calculate_permanova_power`:
`num_iter=100, num_runs=5, bootstrap=False`, `draw_mode` omitted. -/
def permanovaCall : SubsamplePowerCall :=
  { numIter := 100, numRuns := 5, bootstrapArg := some false, drawModeArg := none }

/-- The `subsample_power` call inside `calculate_mantel_power`:
`num_iter=100, num_runs=5, bootstrap=False, draw_mode='matched'`. -/
def mantelCall : SubsamplePowerCall :=
  { numIter := 100, numRuns := 5, bootstrapArg := some false,
    drawModeArg := some DrawMode.matched }

/-- The `empr_power` wiring of the one-sample t test:
`num_iter=1000, num_runs=3`, `bootstrap` and `draw_mode` omitted. -/
def ttest1Call : SubsamplePowerCall :=
  { numIter := 1000, numRuns := 3, bootstrapArg := none, drawModeArg := none }

/-- The `empr_power` wiring of the independent-sample t test:
`num_iter=1000, num_runs=3`, `bootstrap` and `draw_mode` omitted. -/
def ttestIndCall : SubsamplePowerCall :=
  { numIter := 1000, numRuns := 3, bootstrapArg := none, drawModeArg := none }

/-- The `empr_power` wiring of the three-group ANOVA:
`num_iter=1000, num_runs=3`, `bootstrap` and `draw_mode` omitted. -/
def anova3Call : SubsamplePowerCall :=
  { numIter := 1000, numRuns := 3, bootstrapArg := none, drawModeArg := none }

/-- The `empr_power` wiring of the eight-group ANOVA:
`num_iter=1000, num_runs=3`, `bootstrap` and `draw_mode` omitted. -/
def anova8Call : SubsamplePowerCall :=
  { numIter := 1000, numRuns := 3, bootstrapArg := none, drawModeArg := none }

/-- The `empr_power` wiring of the Pearson correlation family:
`num_iter=100, num_runs=5, draw_mode='matched'`, `bootstrap` omitted. -/
def correlationCall : SubsamplePowerCall :=
  { numIter := 100, numRuns := 5, bootstrapArg := none,
    drawModeArg := some DrawMode.matched }

/-! ### The persisted summary records

The power values returned by the estimator and the p-values returned by the
statistical tests are opaque to the wrappers, so they enter the record
constructors as parameters; the constructors record exactly which expression
of the wrapper feeds each persisted key. -/

/-- The `power_summary` dictionary persisted by `calculate_permanova_power`. -/
structure PermanovaSummary where
  emperical : List (List ℚ)
  traditional : Option (List ℚ)
  originalP : ℚ
  numObs : ℕ
  counts : List ℕ
  alpha : ℚ

/-- Embedding of the construction of `power_summary` in
`calculate_permanova_power`: `emperical` is the estimator's return value,
`traditional` is `None`, `original_p` is `test(samples)` on the full
partition, `num_obs` is `len(samples[0])`, `counts` is the wrapper's
schedule, and `alpha` is passed through. -/
def mkPermanovaSummary (sim : PermanovaSim) (alpha : ℚ)
    (power : List (List ℚ)) (test : List (List ℕ) → ℚ) : PermanovaSummary :=
  { emperical := power, traditional := none,
    originalP := test (permanovaSamples sim),
    numObs := ((permanovaSamples sim).headD []).length,
    counts := permanovaCounts sim, alpha := alpha }

/-- The `power_summary` dictionary persisted by `calculate_mantel_power`
(which additionally records the permutation depth). -/
structure MantelSummary where
  emperical : List (List ℚ)
  traditional : Option (List ℚ)
  originalP : ℚ
  numObs : ℕ
  depth : ℕ
  alpha : ℚ
  counts : List ℕ

/-- Embedding of the construction of `power_summary` in
`calculate_mantel_power`. -/
def mkMantelSummary (sim : MantelSim) (alpha : ℚ) (depth : ℕ)
    (power : List (List ℚ)) (test : List (List ℕ) → ℚ) : MantelSummary :=
  { emperical := power, traditional := none,
    originalP := test (mantelSamples sim),
    numObs := ((mantelSamples sim).headD []).length,
    depth := depth, alpha := alpha, counts := mantelCounts sim }

/-- The `round_summary` dictionary persisted by the parametric notebook's
orchestration loop. -/
structure RoundSummary where
  counts : List ℕ
  emperical : List (List ℚ)
  traditional : List ℚ
  numObs : ℕ
  alpha : ℚ
  originalP : ℚ

/-- Embedding of the construction of `round_summary` in the parametric loop:
`counts` is the module-level schedule, `traditional = trad_calc(*samples)`,
`emperical = emp_calc(samples=samples)`, `num_obs = len(samples[0])`,
`original_p = test(samples)` on the full loaded sample. -/
def mkRoundSummary (samples : List (List ℚ)) (alpha : ℚ)
    (tradCalc : List (List ℚ) → List ℚ)
    (empCalc : List (List ℚ) → List (List ℚ))
    (test : List (List ℚ) → ℚ) : RoundSummary :=
  { counts := parametricCounts, emperical := empCalc samples,
    traditional := tradCalc samples,
    numObs := (samples.headD []).length, alpha := alpha,
    originalP := test samples }

/-! ### The two orchestration loops

Both loops iterate over (test family, replicate) work items; each item reads
one input pickle and may write one output pickle, and the file paths of
distinct items are distinct, so the embedding keys both maps by an abstract
item index. `compute` stands for the whole per-item computation (wrapper or
summary construction plus estimator); an input map returning `none` at an
item is an unreadable input pickle, whose load raises. Neither loop installs
an exception handler, so a raise is modelled by stopping the fold and
reporting the raising item in the second component. -/

/-- Pointwise update of an output map: the effect of persisting value `v` at
the output path of item `i`. -/
def writeAt {β : Type} (outs : ℕ → Option β) (i : ℕ) (v : β) : ℕ → Option β :=
  fun j => if j = i then some v else outs j

/-- Embedding of the distance-based notebook's orchestration loop: for each
work item the simulation pickle is loaded first (a missing input raises and
aborts the loop), then the output-existence check `overwrite or not
os.path.exists(power_fp)` decides whether to compute and persist. -/
def distanceLoop {σ β : Type} (ov : Bool) (compute : σ → β)
    (inputs : ℕ → Option σ) :
    List ℕ → (ℕ → Option β) → ((ℕ → Option β) × Option ℕ)
  | [], outs => (outs, none)
  | i :: rest, outs =>
    match inputs i with
    | none => (outs, some i)
    | some sim =>
      if ov || (outs i).isNone then
        distanceLoop ov compute inputs rest (writeAt outs i (compute sim))
      else
        distanceLoop ov compute inputs rest outs

/-- Embedding of the parametric notebook's orchestration loop: for each work
item the skip check `os.path.exists(power_fp) and not overwrite` runs first
(skipping before any input is touched); otherwise the input pickle is loaded
(a missing input raises and aborts the loop), the summary is computed and
persisted. -/
def parametricLoop {σ β : Type} (ov : Bool) (compute : σ → β)
    (inputs : ℕ → Option σ) :
    List ℕ → (ℕ → Option β) → ((ℕ → Option β) × Option ℕ)
  | [], outs => (outs, none)
  | i :: rest, outs =>
    if (outs i).isSome && !ov then
      parametricLoop ov compute inputs rest outs
    else
      match inputs i with
      | none => (outs, some i)
      | some sim =>
        parametricLoop ov compute inputs rest (writeAt outs i (compute sim))

/-- Embedding of the distance-based notebook's top level: the existence check
on `./simulations/` runs in the parameter cell, before the wrappers are
defined and before the orchestration loop; a missing directory raises
`ValueError` immediately. -/
def distanceNotebook {σ β : Type} (simLocationExists : Bool) (ov : Bool)
    (compute : σ → β) (inputs : ℕ → Option σ) (items : List ℕ)
    (outs : ℕ → Option β) : Except String ((ℕ → Option β) × Option ℕ) :=
  if simLocationExists then
    Except.ok (distanceLoop ov compute inputs items outs)
  else
    Except.error "The simulations do not exist. Go back and simulate some data!"

/-- Embedding of the parametric notebook's top level: the existence check on
`./simulations/` runs in the parameter cell, before any wiring or
computation; a missing directory raises `ValueError` immediately (the two
string literals of the source concatenate without a separating space). -/
def parametricNotebook {σ β : Type} (simLocationExists : Bool) (ov : Bool)
    (compute : σ → β) (inputs : ℕ → Option σ) (items : List ℕ)
    (outs : ℕ → Option β) : Except String ((ℕ → Option β) × Option ℕ) :=
  if simLocationExists then
    Except.ok (parametricLoop ov compute inputs items outs)
  else
    Except.error "The simulation directory does not exist.Go back and simulate some data!"

/-! ### Helper lemmas about `arange` -/

/-- Every element of `arange start stop step` (positive step) is at least
`start`, strictly below `stop`, and lies on the step grid. -/
theorem mem_arange {start stop step c : ℕ} (hstep : 0 < step)
    (hc : c ∈ arange start stop step) :
    start ≤ c ∧ c < stop ∧ ∃ k, c = start + k * step := by
  unfold arange at hc
  obtain ⟨k, hk, hck⟩ := List.mem_map.mp hc
  have hk2 : (k + 1) * step ≤ stop - start + step - 1 :=
    (Nat.le_div_iff_mul_le hstep).mp (List.mem_range.mp hk)
  rw [Nat.succ_mul] at hk2
  subst hck
  refine ⟨Nat.le_add_right _ _, ?_, ⟨k, rfl⟩⟩
  omega

/-- `arange` with a positive step is strictly increasing. -/
theorem arange_pairwise (start stop step : ℕ) (hstep : 0 < step) :
    List.Pairwise (· < ·) (arange start stop step) := by
  unfold arange
  refine List.Pairwise.map _ (fun a b hab => ?_) (List.pairwise_lt_range _)
  exact add_lt_add_left (mul_lt_mul_of_pos_right hab hstep) start

/-! ### Claim C1: the counts schedules -/

/-- A loaded parametric sample with two groups of 50 observations each (the
size used by the specification's own end-to-end scenario). -/
def exParamSamples50 : List (List ℚ) :=
  [List.replicate 50 0, List.replicate 50 0]

/-- C1 is false as stated: the parametric orchestration's schedule is the
fixed `np.arange(5, 100, 10)` whatever the loaded sample is, so for a loaded
sample whose smallest group has 50 observations the schedule contains the
count 95, which exceeds `(min group size) - 1 = 49`. -/
theorem c1_counterexample :
    95 ∈ parametricCountsFor exParamSamples50 ∧
    minGroupSize exParamSamples50 = 50 ∧
    ¬ 95 ≤ minGroupSize exParamSamples50 - 1 := by decide

/-- C1 (amended): the distance-based wrappers build strictly increasing
positive schedules bounded by the smallest group size minus the 10-count
buffer (so every count is at most min group size - 11, in particular at most
min group size - 1); the parametric orchestrator uses the fixed
`np.arange(5, 100, 10)` - strictly increasing, positive, every count at most
95, but independent of the loaded samples, so its counts respect the
`min group size - 1` bound only when every loaded group has at least 96
observations. All schedules are built before the estimator is invoked. -/
theorem c1_counts_schedules :
    (∀ sim : PermanovaSim, List.Pairwise (· < ·) (permanovaCounts sim) ∧
      ∀ c ∈ permanovaCounts sim,
        0 < c ∧ c + 10 < permanovaMinGroup sim ∧
          c ≤ permanovaMinGroup sim - 1) ∧
    (∀ sim : MantelSim, List.Pairwise (· < ·) (mantelCounts sim) ∧
      ∀ c ∈ mantelCounts sim,
        0 < c ∧ c + 10 < ((mantelSamples sim).headD []).length ∧
          c ≤ ((mantelSamples sim).headD []).length - 1) ∧
    List.Pairwise (· < ·) parametricCounts ∧
    (∀ samples : List (List ℚ), parametricCountsFor samples = parametricCounts) ∧
    (∀ c ∈ parametricCounts, 0 < c ∧ c ≤ 95) ∧
    (∀ samples : List (List ℚ), 96 ≤ minGroupSize samples →
      ∀ c ∈ parametricCountsFor samples, c ≤ minGroupSize samples - 1) := by
  have hpc : ∀ c ∈ parametricCounts, 0 < c ∧ c ≤ 95 := by decide
  refine ⟨?_, ?_, arange_pairwise _ _ _ (by norm_num), fun _ => rfl, hpc, ?_⟩
  · intro sim
    refine ⟨arange_pairwise _ _ _ (by norm_num), fun c hc => ?_⟩
    obtain ⟨h1, h2, -⟩ := mem_arange (by norm_num) hc
    omega
  · intro sim
    refine ⟨arange_pairwise _ _ _ (by norm_num), fun c hc => ?_⟩
    obtain ⟨h1, h2, -⟩ := mem_arange (by norm_num) hc
    omega
  · intro samples h96 c hc
    have h := hpc c hc
    omega

/-- A PERMANOVA simulation with 60 observations, labels alternating between
0 and 1 (30 per group). -/
def exPermSimC1 : PermanovaSim :=
  { ids := List.range 60, label := fun o => o % 2 }

/-- A Mantel simulation with 40 shared identifiers. -/
def exMantelSimC1 : MantelSim :=
  { ids := List.range 40 }

/-- A loaded parametric sample with one group of 96 observations. -/
def exParamSamples96 : List (List ℚ) :=
  [List.replicate 96 0]

/-- Witness for C1 (amended) at concrete simulations: the count 15 of the
PERMANOVA schedule for 30+30 observations, the count 25 of the Mantel
schedule for 40 identifiers, and the bound clause at a 96-observation
parametric sample. -/
theorem c1_counts_schedules_witness :
    (15 ∈ permanovaCounts exPermSimC1 ∧
      0 < 15 ∧ 15 + 10 < permanovaMinGroup exPermSimC1 ∧
        15 ≤ permanovaMinGroup exPermSimC1 - 1) ∧
    (25 ∈ mantelCounts exMantelSimC1 ∧
      0 < 25 ∧ 25 + 10 < ((mantelSamples exMantelSimC1).headD []).length ∧
        25 ≤ ((mantelSamples exMantelSimC1).headD []).length - 1) ∧
    (96 ≤ minGroupSize exParamSamples96 ∧
      ∀ c ∈ parametricCountsFor exParamSamples96,
        c ≤ minGroupSize exParamSamples96 - 1) :=
  ⟨⟨by decide, (c1_counts_schedules.1 exPermSimC1).2 15 (by decide)⟩,
   ⟨by decide, (c1_counts_schedules.2.1 exMantelSimC1).2 25 (by decide)⟩,
   ⟨by decide, c1_counts_schedules.2.2.2.2.2 exParamSamples96 (by decide)⟩⟩

/-! ### Claims C2, C3, C6: the estimator call sites -/

/-- C2 (confirmed): the PERMANOVA and Mantel wrappers pass `bootstrap=False`
explicitly on their (unique) estimator calls, every parametric family omits
the keyword, and the omitted keyword resolves to the estimator's
without-replacement default, so every call site runs without replacement. -/
theorem c2_bootstrap_false :
    permanovaCall.bootstrapArg = some false ∧
    mantelCall.bootstrapArg = some false ∧
    ttest1Call.bootstrapArg = none ∧
    ttestIndCall.bootstrapArg = none ∧
    anova3Call.bootstrapArg = none ∧
    anova8Call.bootstrapArg = none ∧
    correlationCall.bootstrapArg = none ∧
    permanovaCall.bootstrap = false ∧
    mantelCall.bootstrap = false ∧
    ttest1Call.bootstrap = false ∧
    ttestIndCall.bootstrap = false ∧
    anova3Call.bootstrap = false ∧
    anova8Call.bootstrap = false ∧
    correlationCall.bootstrap = false := by decide

/-- C3 (confirmed): the Mantel and correlation call sites pass
`draw_mode='matched'` explicitly, and all other families omit the keyword,
resolving to the independent draw mode. -/
theorem c3_draw_modes :
    mantelCall.drawMode = DrawMode.matched ∧
    correlationCall.drawMode = DrawMode.matched ∧
    permanovaCall.drawModeArg = none ∧
    permanovaCall.drawMode = DrawMode.independent ∧
    ttest1Call.drawMode = DrawMode.independent ∧
    ttestIndCall.drawMode = DrawMode.independent ∧
    anova3Call.drawMode = DrawMode.independent ∧
    anova8Call.drawMode = DrawMode.independent := by decide

/-- C6 is false as stated: the one-sample t family calls the estimator with
`num_iter=1000, num_runs=3` while the correlation family uses
`num_iter=100, num_runs=5`, so the invocations within one orchestration run
do not share one process-wide pair of values, and the t-test wiring ignores
the module-level `num_iter = 100` and `run_runs = 5`. -/
theorem c6_counterexample :
    ttest1Call.numIter = 1000 ∧ correlationCall.numIter = 100 ∧
    ttest1Call.numIter ≠ correlationCall.numIter ∧
    ttest1Call.numRuns ≠ correlationCall.numRuns ∧
    ttest1Call.numIter ≠ configNumIter ∧
    ttest1Call.numRuns ≠ configRunRuns := by decide

/-- C6 (amended): each test family fixes its own iteration and run counts
when its estimator call is wired - 1000 iterations and 3 runs for the t-test
and ANOVA families, 100 iterations and 5 runs for the correlation family and
for the two distance-based wrappers - while the module-level configuration
values `num_iter = 100` and `run_runs = 5` are set once but never passed to
any estimator call. -/
theorem c6_per_family_values :
    configNumIter = 100 ∧ configRunRuns = 5 ∧
    ttest1Call.numIter = 1000 ∧ ttest1Call.numRuns = 3 ∧
    ttestIndCall.numIter = 1000 ∧ ttestIndCall.numRuns = 3 ∧
    anova3Call.numIter = 1000 ∧ anova3Call.numRuns = 3 ∧
    anova8Call.numIter = 1000 ∧ anova8Call.numRuns = 3 ∧
    correlationCall.numIter = 100 ∧ correlationCall.numRuns = 5 ∧
    permanovaCall.numIter = 100 ∧ permanovaCall.numRuns = 5 ∧
    mantelCall.numIter = 100 ∧ mantelCall.numRuns = 5 := by decide

/-! ### Claim C9: the PERMANOVA two-group partition -/

/-- C9 (confirmed): the PERMANOVA wrapper partitions the observations into
exactly the two groups labelled 0 and 1; an observation with any other label
belongs to neither group - so it is excluded from the subsampling pools -
and does not appear among the identifiers `np.hstack(ids)` that the `test`
function (and hence the `original_p` computation on the full partition)
consults. -/
theorem c9_two_group_partition (sim : PermanovaSim) (o : ℕ)
    (h0 : sim.label o ≠ 0) (h1 : sim.label o ≠ 1) :
    (permanovaSamples sim).length = 2 ∧
    (∀ s ∈ permanovaSamples sim, o ∉ s) ∧
    o ∉ permanovaTestObs (permanovaSamples sim) := by
  have hs : ∀ s ∈ permanovaSamples sim, o ∉ s := by
    intro s hsmem ho
    simp only [permanovaSamples, List.mem_map] at hsmem
    obtain ⟨i, hi, rfl⟩ := hsmem
    have hlab : sim.label o = i := by
      simpa using (List.mem_filter.mp ho).2
    have hi01 : i = 0 ∨ i = 1 := by simpa using hi
    rcases hi01 with rfl | rfl
    · exact h0 hlab
    · exact h1 hlab
  refine ⟨rfl, hs, fun ho => ?_⟩
  simp only [permanovaTestObs, List.mem_flatten] at ho
  obtain ⟨s, hsmem, hos⟩ := ho
  exact hs s hsmem hos

/-- A PERMANOVA simulation whose grouping series carries the labels 0, 1
and 2. -/
def exSimC9 : PermanovaSim :=
  { ids := [0, 1, 2], label := fun o => o }

/-- Witness for C9: in a simulation with labels 0, 1 and 2, the observation
labelled 2 is in neither partition group and never reaches the test. -/
theorem c9_two_group_partition_witness :
    exSimC9.label 2 ≠ 0 ∧ exSimC9.label 2 ≠ 1 ∧
    ((permanovaSamples exSimC9).length = 2 ∧
      (∀ s ∈ permanovaSamples exSimC9, 2 ∉ s) ∧
      2 ∉ permanovaTestObs (permanovaSamples exSimC9)) :=
  ⟨by decide, by decide,
   c9_two_group_partition exSimC9 2 (by decide) (by decide)⟩

/-! ### Claim C4: the persisted summary records -/

/-- A PERMANOVA simulation with a group of 3 observations labelled 0 and a
group of 5 observations labelled 1. -/
def exPermSimC4 : PermanovaSim :=
  { ids := [0, 1, 2, 3, 4, 5, 6, 7], label := fun o => if o < 3 then 0 else 1 }

/-- C4 is false as stated: the persisted `num_obs` field is
`len(samples[0])`, the size of the first group, not the total observation
count - for a simulation with groups of 3 and 5 observations the record
stores 3 while 8 observations were used. -/
theorem c4_counterexample :
    (mkPermanovaSummary exPermSimC4 alphaConfig [] (fun _ => 0)).numObs = 3 ∧
    permanovaTotalObs exPermSimC4 = 8 ∧
    (mkPermanovaSummary exPermSimC4 alphaConfig [] (fun _ => 0)).numObs ≠
      permanovaTotalObs exPermSimC4 := by decide

/-- C4 (amended): every persisted summary record contains the empirical
power curve, the traditional curve (`None` for the two distance-based
wrappers, the closed-form value for the parametric families), the p-value of
the same test function applied to the full un-subsampled sample, the
observation count of the first group (`len(samples[0])`; for the Mantel
wrapper this is the length of the single shared identifier list), the counts
schedule used, and alpha. -/
theorem c4_summary_fields :
    (∀ (sim : PermanovaSim) (alpha : ℚ) (power : List (List ℚ))
        (test : List (List ℕ) → ℚ),
      (mkPermanovaSummary sim alpha power test).emperical = power ∧
      (mkPermanovaSummary sim alpha power test).traditional = none ∧
      (mkPermanovaSummary sim alpha power test).originalP =
        test (permanovaSamples sim) ∧
      (mkPermanovaSummary sim alpha power test).numObs =
        ((permanovaSamples sim).headD []).length ∧
      (mkPermanovaSummary sim alpha power test).counts = permanovaCounts sim ∧
      (mkPermanovaSummary sim alpha power test).alpha = alpha) ∧
    (∀ (sim : MantelSim) (alpha : ℚ) (depth : ℕ) (power : List (List ℚ))
        (test : List (List ℕ) → ℚ),
      (mkMantelSummary sim alpha depth power test).emperical = power ∧
      (mkMantelSummary sim alpha depth power test).traditional = none ∧
      (mkMantelSummary sim alpha depth power test).originalP =
        test (mantelSamples sim) ∧
      (mkMantelSummary sim alpha depth power test).numObs = sim.ids.length ∧
      (mkMantelSummary sim alpha depth power test).counts = mantelCounts sim ∧
      (mkMantelSummary sim alpha depth power test).alpha = alpha ∧
      (mkMantelSummary sim alpha depth power test).depth = depth) ∧
    (∀ (samples : List (List ℚ)) (alpha : ℚ)
        (tradCalc : List (List ℚ) → List ℚ)
        (empCalc : List (List ℚ) → List (List ℚ))
        (test : List (List ℚ) → ℚ),
      (mkRoundSummary samples alpha tradCalc empCalc test).emperical =
        empCalc samples ∧
      (mkRoundSummary samples alpha tradCalc empCalc test).traditional =
        tradCalc samples ∧
      (mkRoundSummary samples alpha tradCalc empCalc test).originalP =
        test samples ∧
      (mkRoundSummary samples alpha tradCalc empCalc test).numObs =
        (samples.headD []).length ∧
      (mkRoundSummary samples alpha tradCalc empCalc test).counts =
        parametricCounts ∧
      (mkRoundSummary samples alpha tradCalc empCalc test).alpha = alpha) :=
  ⟨fun _ _ _ _ => ⟨rfl, rfl, rfl, rfl, rfl, rfl⟩,
   fun _ _ _ _ _ => ⟨rfl, rfl, rfl, rfl, rfl, rfl, rfl⟩,
   fun _ _ _ _ _ => ⟨rfl, rfl, rfl, rfl, rfl, rfl⟩⟩

/-! ### Helper lemmas about the two orchestration loops -/

/-- With `overwrite=False` the distance-based loop never overwrites an
output that already exists: a persisted value survives the whole loop. -/
theorem distanceLoop_preserves {σ β : Type} (compute : σ → β)
    (inputs : ℕ → Option σ) :
    ∀ (items : List ℕ) (outs : ℕ → Option β) (k : ℕ) (v : β),
      outs k = some v →
      ((distanceLoop false compute inputs items outs).1) k = some v := by
  intro items
  induction items with
  | nil => intro outs k v h; exact h
  | cons i rest ih =>
    intro outs k v h
    simp only [distanceLoop]
    cases hinp : inputs i with
    | none => exact h
    | some sim =>
      cases hcond : (false || (outs i).isNone) with
      | false => simp only [hcond, Bool.false_eq_true, if_false]; exact ih outs k v h
      | true =>
        simp only [hcond, if_true]
        apply ih
        have hki : k ≠ i := by
          intro hk
          subst hk
          simp [h] at hcond
        simp [writeAt, hki, h]

/-- With `overwrite=False` the parametric loop never overwrites an output
that already exists. -/
theorem parametricLoop_preserves {σ β : Type} (compute : σ → β)
    (inputs : ℕ → Option σ) :
    ∀ (items : List ℕ) (outs : ℕ → Option β) (k : ℕ) (v : β),
      outs k = some v →
      ((parametricLoop false compute inputs items outs).1) k = some v := by
  intro items
  induction items with
  | nil => intro outs k v h; exact h
  | cons i rest ih =>
    intro outs k v h
    simp only [parametricLoop]
    cases hcond : ((outs i).isSome && !false) with
    | true => simp only [hcond, if_true]; exact ih outs k v h
    | false =>
      simp only [hcond, Bool.false_eq_true, if_false]
      cases hinp : inputs i with
      | none => exact h
      | some sim =>
        apply ih
        have hki : k ≠ i := by
          intro hk
          subst hk
          simp [h] at hcond
        simp [writeAt, hki, h]

/-- If the distance-based loop finishes without raising, every work item's
input was readable and every work item's output exists afterwards. -/
theorem distanceLoop_ok_covers {σ β : Type} (compute : σ → β)
    (inputs : ℕ → Option σ) :
    ∀ (items : List ℕ) (outs outs₁ : ℕ → Option β),
      distanceLoop false compute inputs items outs = (outs₁, none) →
      ∀ i ∈ items, (inputs i).isSome ∧ (outs₁ i).isSome := by
  intro items
  induction items with
  | nil => intro outs outs₁ h i hi; simp at hi
  | cons j rest ih =>
    intro outs outs₁ h i hi
    simp only [distanceLoop] at h
    split at h
    next hinp => simp at h
    next sim hinp =>
      split at h
      next hcond =>
        rcases List.mem_cons.mp hi with rfl | hrest
        · refine ⟨by simp [hinp], ?_⟩
          have hp := distanceLoop_preserves compute inputs rest
            (writeAt outs i (compute sim)) i (compute sim) (by simp [writeAt])
          rw [h] at hp
          simp only [Prod.fst] at hp
          simp [hp]
        · exact ih _ _ h i hrest
      next hcond =>
        rcases List.mem_cons.mp hi with rfl | hrest
        · refine ⟨by simp [hinp], ?_⟩
          have hsome : (outs i).isSome := by
            cases houtj : outs i
            · simp [houtj] at hcond
            · simp
          rw [Option.isSome_iff_exists] at hsome
          obtain ⟨v, hv⟩ := hsome
          have hp := distanceLoop_preserves compute inputs rest outs i v hv
          rw [h] at hp
          simp only [Prod.fst] at hp
          simp [hp]
        · exact ih _ _ h i hrest

/-- If the parametric loop finishes without raising, every work item's
output exists afterwards. -/
theorem parametricLoop_ok_covers {σ β : Type} (compute : σ → β)
    (inputs : ℕ → Option σ) :
    ∀ (items : List ℕ) (outs outs₁ : ℕ → Option β),
      parametricLoop false compute inputs items outs = (outs₁, none) →
      ∀ i ∈ items, (outs₁ i).isSome := by
  intro items
  induction items with
  | nil => intro outs outs₁ h i hi; simp at hi
  | cons j rest ih =>
    intro outs outs₁ h i hi
    simp only [parametricLoop] at h
    split at h
    next hcond =>
      rcases List.mem_cons.mp hi with rfl | hrest
      · have hsome : (outs i).isSome := by
          cases houtj : outs i
          · simp [houtj] at hcond
          · simp
        rw [Option.isSome_iff_exists] at hsome
        obtain ⟨v, hv⟩ := hsome
        have hp := parametricLoop_preserves compute inputs rest outs i v hv
        rw [h] at hp
        simp only [Prod.fst] at hp
        simp [hp]
      · exact ih _ _ h i hrest
    next hcond =>
      split at h
      next hinp => simp at h
      next sim hinp =>
        rcases List.mem_cons.mp hi with rfl | hrest
        · have hp := parametricLoop_preserves compute inputs rest
            (writeAt outs i (compute sim)) i (compute sim) (by simp [writeAt])
          rw [h] at hp
          simp only [Prod.fst] at hp
          simp [hp]
        · exact ih _ _ h i hrest

/-- If every work item's input is readable and every work item's output
already exists, the distance-based loop with `overwrite=False` writes
nothing and finishes without raising. -/
theorem distanceLoop_all_present {σ β : Type} (compute : σ → β)
    (inputs : ℕ → Option σ) :
    ∀ (items : List ℕ) (outs : ℕ → Option β),
      (∀ i ∈ items, (inputs i).isSome ∧ (outs i).isSome) →
      distanceLoop false compute inputs items outs = (outs, none) := by
  intro items
  induction items with
  | nil => intro outs _; rfl
  | cons j rest ih =>
    intro outs h
    have hj := h j (List.mem_cons_self j rest)
    simp only [distanceLoop]
    cases hinp : inputs j with
    | none => rw [hinp] at hj; simp at hj
    | some sim =>
      have hnone : (outs j).isNone = false := by
        have := hj.2
        cases houtj : outs j <;> simp [houtj] at this ⊢
      simp only [hnone, Bool.or_false, Bool.false_eq_true, if_false]
      exact ih outs (fun i hi => h i (List.mem_cons_of_mem j hi))

/-- If every work item's output already exists, the parametric loop with
`overwrite=False` skips every item before touching its input, writes
nothing and finishes without raising - whatever the input map holds. -/
theorem parametricLoop_all_present {σ β : Type} (compute : σ → β)
    (inputs : ℕ → Option σ) :
    ∀ (items : List ℕ) (outs : ℕ → Option β),
      (∀ i ∈ items, (outs i).isSome) →
      parametricLoop false compute inputs items outs = (outs, none) := by
  intro items
  induction items with
  | nil => intro outs _; rfl
  | cons j rest ih =>
    intro outs h
    have hj := h j (List.mem_cons_self j rest)
    simp only [parametricLoop, hj, Bool.not_false, Bool.and_true, if_true]
    exact ih outs (fun i hi => h i (List.mem_cons_of_mem j hi))

/-! ### Claim C5: overwrite-skip and idempotence -/

/-- C5 (confirmed): with `overwrite=False`, both orchestration loops skip
every work item whose output already exists (an existing output value
survives unchanged), and re-running a loop that completed leaves the output
map exactly as the first run left it - no recomputation, all artifacts
byte-identical. -/
theorem c5_skip_idempotent {σ β : Type} (compute : σ → β)
    (inputs : ℕ → Option σ) (items : List ℕ) (outs outs₁ : ℕ → Option β) :
    (∀ k v, outs k = some v →
      ((distanceLoop false compute inputs items outs).1) k = some v) ∧
    (∀ k v, outs k = some v →
      ((parametricLoop false compute inputs items outs).1) k = some v) ∧
    (distanceLoop false compute inputs items outs = (outs₁, none) →
      distanceLoop false compute inputs items outs₁ = (outs₁, none)) ∧
    (parametricLoop false compute inputs items outs = (outs₁, none) →
      parametricLoop false compute inputs items outs₁ = (outs₁, none)) := by
  refine ⟨fun k v h => distanceLoop_preserves compute inputs items outs k v h,
    fun k v h => parametricLoop_preserves compute inputs items outs k v h,
    fun h => ?_, fun h => ?_⟩
  · exact distanceLoop_all_present compute inputs items outs₁
      (distanceLoop_ok_covers compute inputs items outs outs₁ h)
  · exact parametricLoop_all_present compute inputs items outs₁
      (fun i hi => parametricLoop_ok_covers compute inputs items outs outs₁ h i hi)

/-- The output map after one run of either loop on the single work item 0,
starting from an empty output directory. -/
def exOuts1 : ℕ → Option ℕ :=
  fun j => if j = 0 then some 1 else none

/-- Witness for C5 at a concrete one-item batch: the first run writes the
output of item 0; the second run, and any run over the already-written map,
changes nothing. -/
theorem c5_skip_idempotent_witness :
    (exOuts1 0 = some 1 ∧
      ((distanceLoop false (fun _ : ℕ => (1 : ℕ)) (fun _ => some 0) [0] exOuts1).1) 0 = some 1 ∧
      ((parametricLoop false (fun _ : ℕ => (1 : ℕ)) (fun _ => some 0) [0] exOuts1).1) 0 = some 1) ∧
    (distanceLoop false (fun _ : ℕ => (1 : ℕ)) (fun _ => some 0) [0] (fun _ => none) = (exOuts1, none) ∧
      distanceLoop false (fun _ : ℕ => (1 : ℕ)) (fun _ => some 0) [0] exOuts1 = (exOuts1, none)) ∧
    (parametricLoop false (fun _ : ℕ => (1 : ℕ)) (fun _ => some 0) [0] (fun _ => none) = (exOuts1, none) ∧
      parametricLoop false (fun _ : ℕ => (1 : ℕ)) (fun _ => some 0) [0] exOuts1 = (exOuts1, none)) := by
  have h1 := c5_skip_idempotent (fun _ : ℕ => (1 : ℕ)) (fun _ => some 0) [0] exOuts1 exOuts1
  have h2 := c5_skip_idempotent (fun _ : ℕ => (1 : ℕ)) (fun _ => some 0) [0] (fun _ => none) exOuts1
  exact ⟨⟨rfl, h1.1 0 1 rfl, h1.2.1 0 1 rfl⟩,
    ⟨rfl, h2.2.2.1 rfl⟩, ⟨rfl, h2.2.2.2 rfl⟩⟩

/-! ### Claim C7: failure isolation -/

/-- An input map where work item 1's pickle is unreadable and every other
item's pickle is present. -/
def exInputsC7 : ℕ → Option ℕ :=
  fun i => if i = 1 then none else some 0

/-- C7 is false as stated: in the batch of work items 0, 1, 2 where only
item 1's input is unreadable and no output exists yet, both orchestration
loops raise at item 1, and item 2 - whose input pickle is present - is never
computed: its output stays absent. The failure is not isolated; it aborts
the batch. -/
theorem c7_counterexample :
    (distanceLoop false (fun x : ℕ => x) exInputsC7 [0, 1, 2] (fun _ => none)).2 = some 1 ∧
    (distanceLoop false (fun x : ℕ => x) exInputsC7 [0, 1, 2] (fun _ => none)).1 2 = none ∧
    (parametricLoop false (fun x : ℕ => x) exInputsC7 [0, 1, 2] (fun _ => none)).2 = some 1 ∧
    (parametricLoop false (fun x : ℕ => x) exInputsC7 [0, 1, 2] (fun _ => none)).1 2 = none ∧
    exInputsC7 2 = some 0 :=
  ⟨rfl, rfl, rfl, rfl, rfl⟩

/-- C7 (amended): neither loop installs an exception handler, so an
unreadable input aborts the whole batch at that work item and the items
after it are never processed. Distance-based loop: if the items before `i`
all have readable inputs and item `i`'s input is unreadable, the loop stops
at `i` with exactly the outputs the prefix produced. Parametric loop: under
the same prefix condition, if item `i` is additionally not skipped by the
output-existence check (its output absent and untouched by the prefix), the
loop likewise stops at `i` with the prefix's outputs. -/
theorem c7_single_failure_aborts {σ β : Type} (compute : σ → β)
    (inputs : ℕ → Option σ) (ov : Bool) (i : ℕ) (hmiss : inputs i = none) :
    (∀ (pre post : List ℕ) (outs : ℕ → Option β),
      (∀ j ∈ pre, (inputs j).isSome) →
      distanceLoop ov compute inputs (pre ++ i :: post) outs =
        ((distanceLoop ov compute inputs pre outs).1, some i)) ∧
    (∀ (pre post : List ℕ) (outs : ℕ → Option β),
      (∀ j ∈ pre, (inputs j).isSome) → i ∉ pre → outs i = none →
      parametricLoop ov compute inputs (pre ++ i :: post) outs =
        ((parametricLoop ov compute inputs pre outs).1, some i)) := by
  constructor
  · intro pre
    induction pre with
    | nil =>
      intro post outs _
      simp [distanceLoop, hmiss]
    | cons j rest ih =>
      intro post outs hpre
      have hj := hpre j (List.mem_cons_self j rest)
      rw [Option.isSome_iff_exists] at hj
      obtain ⟨s, hs⟩ := hj
      simp only [List.cons_append, distanceLoop, hs]
      cases hcond : (ov || (outs j).isNone) with
      | true =>
        simp only [if_true]
        exact ih post _ (fun m hm => hpre m (List.mem_cons_of_mem j hm))
      | false =>
        simp only [Bool.false_eq_true, if_false]
        exact ih post _ (fun m hm => hpre m (List.mem_cons_of_mem j hm))
  · intro pre
    induction pre with
    | nil =>
      intro post outs _ _ houts
      simp [parametricLoop, houts, hmiss]
    | cons j rest ih =>
      intro post outs hpre hnotin houts
      have hj := hpre j (List.mem_cons_self j rest)
      rw [Option.isSome_iff_exists] at hj
      obtain ⟨s, hs⟩ := hj
      have hij : i ≠ j := fun h => hnotin (h ▸ List.mem_cons_self j rest)
      simp only [List.cons_append, parametricLoop]
      cases hcond : ((outs j).isSome && !ov) with
      | true =>
        simp only [if_true]
        exact ih post outs (fun m hm => hpre m (List.mem_cons_of_mem j hm))
          (fun hm => hnotin (List.mem_cons_of_mem j hm)) houts
      | false =>
        simp only [Bool.false_eq_true, if_false, hs]
        exact ih post _ (fun m hm => hpre m (List.mem_cons_of_mem j hm))
          (fun hm => hnotin (List.mem_cons_of_mem j hm))
          (by simp [writeAt, hij, houts])

/-- Witness for C7 (amended): the concrete aborted batches of the
counterexample - item 1 unreadable after the readable prefix item 0 -
reached through both halves of the general abort theorem. -/
theorem c7_single_failure_aborts_witness :
    exInputsC7 1 = none ∧ (∀ j ∈ [0], (exInputsC7 j).isSome) ∧
    (1 : ℕ) ∉ ([0] : List ℕ) ∧
    (fun _ : ℕ => (none : Option ℕ)) 1 = none ∧
    distanceLoop false (fun x : ℕ => x) exInputsC7 ([0] ++ 1 :: [2]) (fun _ => none) =
      ((distanceLoop false (fun x : ℕ => x) exInputsC7 [0] (fun _ => none)).1, some 1) ∧
    parametricLoop false (fun x : ℕ => x) exInputsC7 ([0] ++ 1 :: [2]) (fun _ => none) =
      ((parametricLoop false (fun x : ℕ => x) exInputsC7 [0] (fun _ => none)).1, some 1) := by
  have h := c7_single_failure_aborts (fun x : ℕ => x) exInputsC7 false 1 rfl
  exact ⟨rfl, by decide, by decide, rfl,
    h.1 [0] [2] (fun _ => none) (by decide),
    h.2 [0] [2] (fun _ => none) (by decide) (by decide) rfl⟩

/-! ### Claim C8: missing simulations directory -/

/-- C8 (confirmed): when the simulations directory is absent both notebooks
raise `ValueError` in the parameter cell: whatever the overwrite flag, the
inputs, the outputs and the per-item computation, the run is the error value
- the orchestration loop is never entered, so no simulation data is loaded
and no power estimate is computed. -/
theorem c8_missing_sim_location {σ β : Type} (ov : Bool) (compute : σ → β)
    (inputs : ℕ → Option σ) (items : List ℕ) (outs : ℕ → Option β) :
    distanceNotebook false ov compute inputs items outs =
      Except.error "The simulations do not exist. Go back and simulate some data!" ∧
    parametricNotebook false ov compute inputs items outs =
      Except.error "The simulation directory does not exist.Go back and simulate some data!" :=
  ⟨rfl, rfl⟩

/-! ### Claim C10: input loading versus the skip check -/

/-- C10 (confirmed): the parametric loop checks for an existing output
before loading the input, so when `overwrite=False` and every item's output
exists it completes without touching the input map at all - even one where
every pickle is unreadable; the distance-based loop loads the input first,
so it raises on an unreadable input even when that item's output exists and
its computation would have been skipped. -/
theorem c10_load_order {σ β : Type} (compute : σ → β)
    (inputs : ℕ → Option σ) (items : List ℕ) (outs : ℕ → Option β)
    (i : ℕ) (rest : List ℕ)
    (hall : ∀ j ∈ items, (outs j).isSome) (hmiss : inputs i = none) :
    parametricLoop false compute inputs items outs = (outs, none) ∧
    distanceLoop false compute inputs (i :: rest) outs = (outs, some i) := by
  refine ⟨parametricLoop_all_present compute inputs items outs hall, ?_⟩
  simp [distanceLoop, hmiss]

/-- Witness for C10: with both outputs already written and every input
unreadable, the parametric loop on items 0 and 1 completes and changes
nothing, while the distance-based loop raises at item 0. -/
theorem c10_load_order_witness :
    (∀ j ∈ [0, 1], ((fun _ : ℕ => some (1 : ℕ)) j).isSome) ∧
    (fun _ : ℕ => (none : Option ℕ)) 0 = none ∧
    parametricLoop false (fun x : ℕ => x) (fun _ => (none : Option ℕ)) [0, 1]
      (fun _ => some 1) = ((fun _ => some 1), none) ∧
    distanceLoop false (fun x : ℕ => x) (fun _ => (none : Option ℕ)) (0 :: [1])
      (fun _ => some 1) = ((fun _ => some 1), some 0) := by
  have h := c10_load_order (fun x : ℕ => x) (fun _ => (none : Option ℕ)) [0, 1]
    (fun _ => some 1) 0 [1] (by decide) rfl
  exact ⟨by decide, rfl, h.1, h.2⟩

end Machiavellian
